import Mathlib

/-!
Formal model of the banking-app transaction domain engine.

The definitions below are a shallow embedding of the TypeScript sources:

- app/features/transactions/services/transaction.service.ts
  (calculateBalance, validateTransaction, createTransaction,
   undoLastTransaction, processScheduledTransactions, saveDraft, getDraft,
   clearDraft, and the computed signals they read);
- app/core (models, BUSINESS_RULES, DataLoaderService transaction cache
  operations, CustomerStateService selection state, StorageService draft
  slot);
- the AnalyticsService (averageSpending, abnormalSpending, spendingTrend,
  monthOverMonthChange) from
  app/features/transactions/pages/create-transaction/create-transaction.component.ts.

Modelling conventions:

- JavaScript numbers are modelled as rationals; Math.round is modelled as
  the floor of x + 1/2, which matches JS rounding (half away from minus
  infinity) on all inputs.
- Dates in the data are date-only ISO strings (YYYY-MM-DD).  On such
  strings the string comparisons used by the code (equality, lexicographic
  order, startsWith of a date-only key) and the Date-object comparisons
  after setHours(0,0,0,0) all coincide with the calendar order of the
  (year, month, day) triple, so a date is modelled as that triple with its
  lexicographic order; the month component is the zero-based JS month.
- Error and analytics message strings are template literals; each is
  modelled as a constructor carrying exactly the numeric or date values
  interpolated into the template, so that theorems can speak about what a
  message states without modelling locale-dependent number formatting.
- The mutable service state (DataLoaderService transaction cache, selected
  customer and account ids, undo slot signals, localStorage draft slot and
  hasDraft flag) is gathered into one state record; methods become
  functions from state to result and updated state.  The current date,
  read by the code via new Date(), is an explicit parameter, and the
  nondeterministic fresh id, creation timestamp and reference suffix
  produced by Date.now and Math.random are explicit parameters of
  createTransaction.
-/

inductive TransactionType where
  | credit
  | debit
deriving DecidableEq

inductive TransactionStatus where
  | completed
  | scheduled
  | draft
  | reversed
deriving DecidableEq

inductive TransactionCategory where
  | salary
  | transfer
  | payment
  | withdrawal
  | deposit
  | income
  | fees
  | refund
  | other
deriving DecidableEq

inductive AccountStatus where
  | active
  | inactive
  | frozen
deriving DecidableEq

inductive Currency where
  | egp
  | usd
  | eur
  | gbp
  | sar
deriving DecidableEq

inductive AccountType where
  | savings
  | checking
  | current
deriving DecidableEq

/-- A calendar date, modelling a date-only ISO string; month is the
zero-based JS month (0 = January). -/
structure CalendarDate where
  year : ℕ
  month : ℕ
  day : ℕ
deriving DecidableEq, Inhabited

/-- Calendar (equivalently, lexicographic ISO-string) strict order. -/
def CalendarDate.lt (a b : CalendarDate) : Prop :=
  a.year < b.year ∨ (a.year = b.year ∧
    (a.month < b.month ∨ (a.month = b.month ∧ a.day < b.day)))

instance (a b : CalendarDate) : Decidable (CalendarDate.lt a b) := by
  unfold CalendarDate.lt; infer_instance

/-- Calendar (equivalently, lexicographic ISO-string) non-strict order. -/
def CalendarDate.le (a b : CalendarDate) : Prop :=
  CalendarDate.lt a b ∨ a = b

instance (a b : CalendarDate) : Decidable (CalendarDate.le a b) := by
  unfold CalendarDate.le; infer_instance

structure Transaction where
  id : String
  accountId : String
  type : TransactionType
  category : TransactionCategory
  amount : ℚ
  currency : Currency
  description : String
  date : CalendarDate
  status : TransactionStatus
  createdAt : String
  reference : Option String
deriving DecidableEq

structure Account where
  id : String
  customerId : String
  accountNumber : String
  type : AccountType
  status : AccountStatus
  currency : Currency
  openingDate : CalendarDate
  openingBalance : ℚ
deriving DecidableEq

structure DraftTransaction where
  accountId : Option String := none
  type : Option TransactionType := none
  category : Option TransactionCategory := none
  amount : Option ℚ := none
  description : Option String := none
  date : Option CalendarDate := none
  savedAt : String
deriving DecidableEq

namespace BUSINESS_RULES

def DAILY_DEBIT_LIMIT : ℚ := 20000

def MAX_TRANSACTIONS_PER_DAY : ℕ := 10

def CREDIT_ONLY_CATEGORIES : List TransactionCategory :=
  [.income, .refund, .deposit]

def DEBIT_ONLY_CATEGORIES : List TransactionCategory :=
  [.fees, .withdrawal, .payment]

end BUSINESS_RULES

/-- The content of a validation-error message template, carrying the
values interpolated into the template string. -/
inductive ErrorMessage where
  | pleaseSelectAccount
  | inactiveAccountsDisabled
  | frozenDebitsDisabled
  | amountMustBePositive
  | dateBeforeOpening (openingDate : CalendarDate)
  | categoryDebitOnly (category : TransactionCategory)
  | categoryCreditOnly (category : TransactionCategory)
  | dailyLimitNoRemaining (limit : ℚ)
  | dailyLimitRemaining (limit : ℚ) (remaining : ℚ)
  | maxTransactionsExceeded (maxPerDay : ℕ)
deriving DecidableEq

inductive ErrorField where
  | amount
  | date
  | category
deriving DecidableEq

structure TransactionValidationError where
  code : String
  message : ErrorMessage
  field : Option ErrorField := none
deriving DecidableEq

/-- The whole mutable state read and written by the transaction service:
the DataLoaderService transaction cache and account list, the
CustomerStateService selection, the undo-slot signals, and the
localStorage draft slot together with the hasDraft signal. -/
structure ServiceState where
  transactions : List Transaction
  accounts : List Account
  selectedCustomerId : Option String
  selectedAccountId : Option String
  lastTransaction : Option Transaction
  canUndo : Bool
  draft : Option DraftTransaction
  hasDraft : Bool
deriving DecidableEq

/-- DataLoaderService.addTransaction: appends to the cached list. -/
def addTransaction (txns : List Transaction) (transaction : Transaction) :
    List Transaction :=
  txns ++ [transaction]

/-- DataLoaderService.updateTransaction at its only call site, where the
partial update is the single field status. -/
def updateTransactionStatus (txns : List Transaction) (id : String)
    (newStatus : TransactionStatus) : List Transaction :=
  txns.map (fun t => if t.id = id then { t with status := newStatus } else t)

/-- DataLoaderService.removeTransaction: drops every cached transaction
with the given id. -/
def removeTransaction (txns : List Transaction) (id : String) :
    List Transaction :=
  txns.filter (fun t => t.id ≠ id)

/-- CustomerStateService.customerAccounts. -/
def customerAccounts (s : ServiceState) : List Account :=
  match s.selectedCustomerId with
  | none => []
  | some customerId => s.accounts.filter (fun a => a.customerId = customerId)

/-- CustomerStateService.selectedAccount. -/
def selectedAccount (s : ServiceState) : Option Account :=
  match s.selectedAccountId with
  | none => none
  | some id => (customerAccounts s).find? (fun a => a.id = id)

/-- TransactionService.accountTransactions: the cached transactions of the
selected account, sorted by date descending (the JS comparator subtracts
timestamps and Array.prototype.sort is stable; insertion sort with the
non-strict descending relation is a stable sort computing the same
list). -/
def accountTransactions (s : ServiceState) : List Transaction :=
  match s.selectedAccountId with
  | none => []
  | some accountId =>
    List.insertionSort (fun a b => CalendarDate.le b.date a.date)
      (s.transactions.filter (fun t => t.accountId = accountId))

/-- TransactionService.completedTransactions. -/
def completedTransactions (s : ServiceState) : List Transaction :=
  (accountTransactions s).filter (fun t => t.status = .completed)

/-- TransactionService.scheduledTransactions. -/
def scheduledTransactions (s : ServiceState) : List Transaction :=
  (accountTransactions s).filter (fun t => t.status = .scheduled)

/-- TransactionService.todayDebitTotal; startsWith on a date-only key is
date equality under the date-only modelling. -/
def todayDebitTotal (s : ServiceState) (today : CalendarDate) : ℚ :=
  match s.selectedAccountId with
  | none => 0
  | some _ =>
    ((completedTransactions s).filter
        (fun t => t.type = .debit ∧ t.date = today)).foldl
      (fun sum t => sum + t.amount) 0

/-- TransactionService.remainingDailyLimit. -/
def remainingDailyLimit (s : ServiceState) (today : CalendarDate) : ℚ :=
  max 0 (BUSINESS_RULES.DAILY_DEBIT_LIMIT - todayDebitTotal s today)

/-- TransactionService.todayTransactionCount. -/
def todayTransactionCount (s : ServiceState) (today : CalendarDate) : ℕ :=
  match s.selectedAccountId with
  | none => 0
  | some _ =>
    ((completedTransactions s).filter (fun t => t.date = today)).length

/-- TransactionService.calculateBalance. -/
def calculateBalance (account : Account) (transactions : List Transaction) :
    ℚ :=
  transactions.foldl
    (fun balance txn =>
      if txn.status ≠ .completed then balance
      else if txn.type = .credit then balance + txn.amount
      else balance - txn.amount)
    account.openingBalance

def noAccountError : TransactionValidationError :=
  { code := "NO_ACCOUNT", message := .pleaseSelectAccount }

def accountInactiveError : TransactionValidationError :=
  { code := "ACCOUNT_INACTIVE", message := .inactiveAccountsDisabled }

def accountFrozenError : TransactionValidationError :=
  { code := "ACCOUNT_FROZEN", message := .frozenDebitsDisabled }

def invalidAmountError : TransactionValidationError :=
  { code := "INVALID_AMOUNT", message := .amountMustBePositive,
    field := some .amount }

def dateBeforeOpeningError (openingDate : CalendarDate) :
    TransactionValidationError :=
  { code := "DATE_BEFORE_OPENING", message := .dateBeforeOpening openingDate,
    field := some .date }

def invalidCategoryDebitOnlyError (category : TransactionCategory) :
    TransactionValidationError :=
  { code := "INVALID_CATEGORY", message := .categoryDebitOnly category,
    field := some .category }

def invalidCategoryCreditOnlyError (category : TransactionCategory) :
    TransactionValidationError :=
  { code := "INVALID_CATEGORY", message := .categoryCreditOnly category,
    field := some .category }

/-- The DAILY_LIMIT_EXCEEDED error; the source picks the message template
by the sign of the remaining allowance. -/
def dailyLimitExceededError (remaining : ℚ) : TransactionValidationError :=
  { code := "DAILY_LIMIT_EXCEEDED",
    message :=
      if remaining ≤ 0 then
        .dailyLimitNoRemaining BUSINESS_RULES.DAILY_DEBIT_LIMIT
      else
        .dailyLimitRemaining BUSINESS_RULES.DAILY_DEBIT_LIMIT remaining,
    field := some .amount }

def maxTransactionsExceededError : TransactionValidationError :=
  { code := "MAX_TRANSACTIONS_EXCEEDED",
    message := .maxTransactionsExceeded BUSINESS_RULES.MAX_TRANSACTIONS_PER_DAY }

/-- One conditional errors.push statement: appends the error when the
rule condition holds, otherwise leaves the accumulated list unchanged. -/
def pushIf (c : Prop) [Decidable c] (err : TransactionValidationError)
    (errors : List TransactionValidationError) :
    List TransactionValidationError :=
  if c then errors ++ [err] else errors

/-- TransactionService.validateTransaction.  The two account checks return
immediately; the remaining rules push onto the accumulated error list in
source order. -/
def validateTransaction (s : ServiceState) (today : CalendarDate)
    (amount : ℚ) (type : TransactionType) (category : TransactionCategory)
    (date : CalendarDate) (account : Option Account) :
    List TransactionValidationError :=
  match account with
  | none => [noAccountError]
  | some account =>
    if account.status = .inactive then
      [accountInactiveError]
    else
      let errors : List TransactionValidationError := []
      let errors :=
        pushIf (account.status = .frozen ∧ type = .debit)
          accountFrozenError errors
      let errors := pushIf (amount ≤ 0) invalidAmountError errors
      let errors :=
        pushIf (CalendarDate.lt date account.openingDate)
          (dateBeforeOpeningError account.openingDate) errors
      let errors :=
        pushIf
          (type = .credit ∧ category ∈ BUSINESS_RULES.DEBIT_ONLY_CATEGORIES)
          (invalidCategoryDebitOnlyError category) errors
      let errors :=
        pushIf
          (type = .debit ∧ category ∈ BUSINESS_RULES.CREDIT_ONLY_CATEGORIES)
          (invalidCategoryCreditOnlyError category) errors
      let isToday := date = today
      let errors :=
        pushIf
          (type = .debit ∧ isToday ∧
            BUSINESS_RULES.DAILY_DEBIT_LIMIT < todayDebitTotal s today + amount)
          (dailyLimitExceededError (remainingDailyLimit s today)) errors
      let errors :=
        pushIf
          (isToday ∧
            BUSINESS_RULES.MAX_TRANSACTIONS_PER_DAY
              ≤ todayTransactionCount s today)
          maxTransactionsExceededError errors
      errors

/-- TransactionService.saveDraft: overwrite the single draft slot with the
draft stamped with the save time. -/
def saveDraft (s : ServiceState) (draft : DraftTransaction) (now : String) :
    ServiceState :=
  { s with draft := some { draft with savedAt := now }, hasDraft := true }

/-- TransactionService.getDraft. -/
def getDraft (s : ServiceState) : Option DraftTransaction :=
  s.draft

/-- TransactionService.clearDraft. -/
def clearDraft (s : ServiceState) : ServiceState :=
  { s with draft := none, hasDraft := false }

/-- Result record of createTransaction. -/
structure CreateTransactionOutcome where
  success : Bool
  transaction : Option Transaction := none
  errors : Option (List TransactionValidationError) := none
deriving DecidableEq

/-- TransactionService.generateReference with the time-derived suffix as a
parameter. -/
def generateReference (type : TransactionType) (suffix : String) : String :=
  (if type = TransactionType.credit then ("CR-") else ("DR-")) ++ suffix

/-- TransactionService.createTransaction.  The source reads the selected
account, validates, and returns the errors as data on failure; on the
failure path the account is never dereferenced, so matching on the account
first is behaviour-identical (a missing account forces the NO_ACCOUNT
error and hence the failure path). -/
def createTransaction (s : ServiceState) (today : CalendarDate)
    (type : TransactionType) (category : TransactionCategory) (amount : ℚ)
    (description : String) (date : CalendarDate) (freshId : String)
    (nowTimestamp : String) (refSuffix : String) :
    CreateTransactionOutcome × ServiceState :=
  let errors := validateTransaction s today amount type category date
    (selectedAccount s)
  match selectedAccount s with
  | none => ({ success := false, errors := some errors }, s)
  | some acc =>
    if errors ≠ [] then
      ({ success := false, errors := some errors }, s)
    else
      let isScheduled := CalendarDate.lt today date
      let status :=
        if isScheduled then TransactionStatus.scheduled
        else TransactionStatus.completed
      let transaction : Transaction :=
        { id := freshId, accountId := acc.id, type := type,
          category := category, amount := amount, currency := acc.currency,
          description := description, date := date, status := status,
          createdAt := nowTimestamp,
          reference := some (generateReference type refSuffix) }
      let s1 := { s with
        transactions := addTransaction s.transactions transaction }
      let s2 :=
        if status = TransactionStatus.completed then
          { s1 with lastTransaction := some transaction, canUndo := true }
        else s1
      let s3 := clearDraft s2
      ({ success := true, transaction := some transaction }, s3)

/-- TransactionService.undoLastTransaction. -/
def undoLastTransaction (s : ServiceState) : Bool × ServiceState :=
  match s.lastTransaction with
  | none => (false, s)
  | some lastTxn =>
    if s.canUndo = false then (false, s)
    else
      (true,
        { s with
          transactions := removeTransaction s.transactions lastTxn.id,
          lastTransaction := none, canUndo := false })

/-- TransactionService.processScheduledTransactions: the scheduled list is
read once, each due entry is transitioned via updateTransactionStatus and
counted. -/
def processScheduledTransactions (s : ServiceState) (today : CalendarDate) :
    ℕ × ServiceState :=
  let scheduled := scheduledTransactions s
  let due := scheduled.filter (fun t => CalendarDate.le t.date today)
  let txns := due.foldl
    (fun acc t => updateTransactionStatus acc t.id .completed)
    s.transactions
  (due.length, { s with transactions := txns })

/-- AnalyticsService.customerTransactions: completed transactions of every
account of the selected customer. -/
def customerTransactions (s : ServiceState) : List Transaction :=
  match s.selectedCustomerId with
  | none => []
  | some customerId =>
    let accountIds :=
      (s.accounts.filter (fun a => a.customerId = customerId)).map
        (fun a => a.id)
    s.transactions.filter
      (fun t => t.accountId ∈ accountIds ∧ t.status = .completed)

/-- AnalyticsService.debitTransactions. -/
def debitTransactions (s : ServiceState) : List Transaction :=
  (customerTransactions s).filter (fun t => t.type = .debit)

/-- JS Math.round: floor of x + 1/2 (half rounds toward plus infinity). -/
def jsRound (x : ℚ) : ℤ :=
  ⌊x + 1/2⌋

/-- AnalyticsService.averageSpending: rounded mean of the debit amounts,
zero when there are no debits. -/
def averageSpending (s : ServiceState) : ℚ :=
  let debits := debitTransactions s
  if debits.length = 0 then 0
  else
    let total := debits.foldl (fun sum t => sum + t.amount) 0
    ((jsRound (total / debits.length) : ℤ) : ℚ)

def ABNORMAL_THRESHOLD : ℚ := 3/2

/-- The content of an abnormal-spending message: the empty string, the
neutral message, or the count-bearing message. -/
inductive AbnormalMessage where
  | empty
  | noAbnormalDetected
  | exceedCount (count : ℕ)
deriving DecidableEq

structure AbnormalSpendingResult where
  detected : Bool
  transactions : List Transaction
  message : AbnormalMessage
deriving DecidableEq

/-- AnalyticsService.abnormalSpending. -/
def abnormalSpending (s : ServiceState) : AbnormalSpendingResult :=
  let debits := debitTransactions s
  let average := averageSpending s
  if average = 0 ∨ debits.length < 3 then
    { detected := false, transactions := [], message := .empty }
  else
    let threshold := average * ABNORMAL_THRESHOLD
    let abnormalTxns := debits.filter (fun t => threshold < t.amount)
    if abnormalTxns = [] then
      { detected := false, transactions := [],
        message := .noAbnormalDetected }
    else
      { detected := true, transactions := abnormalTxns,
        message := .exceedCount abnormalTxns.length }

/-- One entry of the spending trend; the month field is the zero-based
month number standing for the short locale label. -/
structure MonthlySpending where
  month : ℤ
  year : ℤ
  total : ℚ
  count : ℕ
deriving DecidableEq, Inhabited

/-- The zero-based month counter used to normalise the JS Date rollover in
new Date(year, month - i, 1). -/
def monthIndex (d : CalendarDate) : ℤ :=
  (d.year : ℤ) * 12 + d.month

/-- One loop iteration of AnalyticsService.spendingTrend at month counter
idx. -/
def trendEntry (txns : List Transaction) (idx : ℤ) : MonthlySpending :=
  let monthTransactions := txns.filter (fun t => monthIndex t.date = idx)
  { month := Int.fmod idx 12, year := Int.fdiv idx 12,
    total := monthTransactions.foldl (fun sum t => sum + t.amount) 0,
    count := monthTransactions.length }

/-- AnalyticsService.spendingTrend: the loop runs i = 2, 1, 0, so the
entries are the two preceding months and the current one, oldest first. -/
def spendingTrend (s : ServiceState) (now : CalendarDate) :
    List MonthlySpending :=
  let transactions := debitTransactions s
  [trendEntry transactions (monthIndex now - 2),
   trendEntry transactions (monthIndex now - 1),
   trendEntry transactions (monthIndex now)]

inductive ChangeDirection where
  | up
  | down
  | stable
deriving DecidableEq

structure MonthOverMonth where
  change : ℚ
  percentage : ℤ
  direction : ChangeDirection
deriving DecidableEq

/-- AnalyticsService.monthOverMonthChange. -/
def monthOverMonthChange (s : ServiceState) (now : CalendarDate) :
    MonthOverMonth :=
  let trend := spendingTrend s now
  if trend.length < 2 then { change := 0, percentage := 0, direction := .stable }
  else
    let current := (trend.getD (trend.length - 1) default).total
    let previous := (trend.getD (trend.length - 2) default).total
    if previous = 0 then
      { change := current, percentage := 0, direction := .stable }
    else
      let change := current - previous
      let percentage := jsRound (change / previous * 100)
      { change := change, percentage := percentage,
        direction :=
          if 0 < change then .up else if change < 0 then .down else .stable }

/-- The limit value a validation message template states, when it states
one. -/
def statedLimit : ErrorMessage → Option ℚ
  | .dailyLimitNoRemaining limit => some limit
  | .dailyLimitRemaining limit _ => some limit
  | _ => none

/-- The remaining allowance a validation message template states, when it
states one; the no-remaining template states it as zero in words. -/
def statedRemaining : ErrorMessage → Option ℚ
  | .dailyLimitNoRemaining _ => some 0
  | .dailyLimitRemaining _ remaining => some remaining
  | _ => none

/-! Concrete fixtures used by witness and counterexample theorems. -/

/-- A concrete active checking account of customer c1. -/
def acctW : Account :=
  { id := "a1", customerId := "c1", accountNumber := "ACC-1",
    type := .checking, status := .active, currency := .egp,
    openingDate := ⟨2025, 0, 1⟩, openingBalance := 1000 }

/-- The concrete reference day 2025-06-15 (month is the zero-based JS
month). -/
def dayW : CalendarDate := ⟨2025, 5, 15⟩

/-- The day after the reference day. -/
def dayW1 : CalendarDate := ⟨2025, 5, 16⟩

/-- Builds a concrete transaction on account a1 with the transfer
category. -/
def mkTxn (id : String) (ty : TransactionType) (amt : ℚ)
    (d : CalendarDate) (st : TransactionStatus) : Transaction :=
  { id := id, accountId := "a1", type := ty, category := .transfer,
    amount := amt, currency := .egp, description := "t", date := d,
    status := st, createdAt := "ts", reference := none }

/-- Builds a concrete service state with customer c1 and account a1
selected and the given transaction cache. -/
def mkState (txns : List Transaction) : ServiceState :=
  { transactions := txns, accounts := [acctW],
    selectedCustomerId := some ("c1"), selectedAccountId := some ("a1"),
    lastTransaction := none, canUndo := false, draft := none,
    hasDraft := false }

/-- A completed credit of 100 on the reference day. -/
def txnCreditW : Transaction := mkTxn "t1" .credit 100 dayW .completed

/-- A completed debit of 40 on the reference day. -/
def txnDebitW : Transaction := mkTxn "t2" .debit 40 dayW .completed

/-- The completed debit recorded as undoable in the undo fixture state. -/
def txnUndoW : Transaction := mkTxn "t0" .debit 50 dayW .completed

/-- A state in which txnUndoW is in the ledger and recorded as
undoable. -/
def undoStateW : ServiceState :=
  { mkState [txnUndoW] with
    lastTransaction := some txnUndoW,
    canUndo := true }

/-- A state in which 19500 of completed debits already exist today. -/
def dailyLimitStateW : ServiceState :=
  mkState [mkTxn "p1" .debit 19500 dayW .completed]

/-- The inactive variant of the fixture account. -/
def acctInactiveW : Account := { acctW with status := .inactive }

/-- The frozen variant of the fixture account. -/
def acctFrozenW : Account := { acctW with status := .frozen }

/-- The abnormal-spending scenario: four completed debits of 100 and one
of 400. -/
def abnormalStateW : ServiceState :=
  mkState
    [mkTxn "d1" .debit 100 dayW .completed,
     mkTxn "d2" .debit 100 dayW .completed,
     mkTxn "d3" .debit 100 dayW .completed,
     mkTxn "d4" .debit 100 dayW .completed,
     mkTxn "d5" .debit 400 dayW .completed]

/-- The flagged transaction of the abnormal-spending scenario. -/
def txnAbnormalW : Transaction := mkTxn "d5" .debit 400 dayW .completed

/-- A state with one due scheduled debit, one future scheduled credit, and
one completed debit, all with distinct ids. -/
def scheduledStateW : ServiceState :=
  mkState
    [mkTxn "t0" .debit 50 dayW .completed,
     mkTxn "s1" .debit 10 dayW .scheduled,
     mkTxn "s2" .credit 20 ⟨2025, 5, 20⟩ .scheduled]

/-- A state whose only debit is 500 in the current month, with no debits
in the preceding month. -/
def trendStateW : ServiceState :=
  mkState [mkTxn "m1" .debit 500 dayW .completed]

/-! Helper lemmas. -/

/-- Closed form of the calculateBalance fold, for any initial balance. -/
theorem calcBalance_foldl_closed (T : List Transaction) : ∀ (init : ℚ),
    T.foldl
      (fun balance txn =>
        if txn.status ≠ .completed then balance
        else if txn.type = .credit then balance + txn.amount
        else balance - txn.amount)
      init
    = init
      + ((T.filter (fun t => t.status = .completed ∧ t.type = .credit)).map
          (fun t => t.amount)).sum
      - ((T.filter (fun t => t.status = .completed ∧ t.type = .debit)).map
          (fun t => t.amount)).sum := by
  induction T with
  | nil => intro init; simp
  | cons t T ih =>
    intro init
    rw [List.foldl_cons, ih]
    rcases hs : t.status <;> rcases ht : t.type <;>
      simp [List.filter_cons, hs, ht] <;> ring

/-- C1: for every account A and every list T of transactions (of any
statuses, in any order), calculateBalance equals the opening balance plus
the sum of completed credit amounts minus the sum of completed debit
amounts; transactions with any other status contribute nothing, and the
result is invariant under reordering of T. -/
theorem calculateBalance_closed_form_and_perm_invariant (A : Account)
    (T T2 : List Transaction) (hperm : T.Perm T2) :
    calculateBalance A T
      = A.openingBalance
        + ((T.filter (fun t => t.status = .completed ∧ t.type = .credit)).map
            (fun t => t.amount)).sum
        - ((T.filter (fun t => t.status = .completed ∧ t.type = .debit)).map
            (fun t => t.amount)).sum
    ∧ calculateBalance A T2 = calculateBalance A T := by
  have h1 := calcBalance_foldl_closed T A.openingBalance
  have h2 := calcBalance_foldl_closed T2 A.openingBalance
  have hc : ((T2.filter (fun t => t.status = .completed ∧ t.type = .credit)).map
      (fun t => t.amount)).sum
      = ((T.filter (fun t => t.status = .completed ∧ t.type = .credit)).map
      (fun t => t.amount)).sum :=
    ((hperm.filter _).map _).sum_eq.symm
  have hd : ((T2.filter (fun t => t.status = .completed ∧ t.type = .debit)).map
      (fun t => t.amount)).sum
      = ((T.filter (fun t => t.status = .completed ∧ t.type = .debit)).map
      (fun t => t.amount)).sum :=
    ((hperm.filter _).map _).sum_eq.symm
  refine ⟨h1, ?_⟩
  unfold calculateBalance
  rw [h1, h2, hc, hd]

/-- Witness for C1 at a concrete account and a concrete two-element
reordering. -/
theorem calculateBalance_closed_form_and_perm_invariant_witness :
    calculateBalance acctW [txnCreditW, txnDebitW]
      = acctW.openingBalance
        + (([txnCreditW, txnDebitW].filter
            (fun t => t.status = .completed ∧ t.type = .credit)).map
            (fun t => t.amount)).sum
        - (([txnCreditW, txnDebitW].filter
            (fun t => t.status = .completed ∧ t.type = .debit)).map
            (fun t => t.amount)).sum
    ∧ calculateBalance acctW [txnDebitW, txnCreditW]
        = calculateBalance acctW [txnCreditW, txnDebitW] :=
  calculateBalance_closed_form_and_perm_invariant acctW
    [txnCreditW, txnDebitW] [txnDebitW, txnCreditW] (by decide)

/-- C5: with a null account the validator returns exactly the single
NO_ACCOUNT error, and with an inactive account exactly the single
ACCOUNT_INACTIVE error; no other rule contributes in either case. -/
theorem validateTransaction_short_circuits (s : ServiceState)
    (today : CalendarDate) (amount : ℚ) (type : TransactionType)
    (category : TransactionCategory) (date : CalendarDate) (acc : Account)
    (hacc : acc.status = .inactive) :
    validateTransaction s today amount type category date none
      = [noAccountError]
    ∧ validateTransaction s today amount type category date (some acc)
      = [accountInactiveError] := by
  constructor
  · rfl
  · simp [validateTransaction, hacc]

/-- Witness for C5 at a concrete inactive account. -/
theorem validateTransaction_short_circuits_witness :
    acctInactiveW.status = .inactive
    ∧ (validateTransaction (mkState []) dayW 100 .debit .transfer dayW none
        = [noAccountError]
      ∧ validateTransaction (mkState []) dayW 100 .debit .transfer dayW
          (some acctInactiveW)
        = [accountInactiveError]) :=
  ⟨by decide,
    validateTransaction_short_circuits (mkState []) dayW 100 .debit .transfer
      dayW acctInactiveW (by decide)⟩

/-- Pushing a conditional append to the end of an accumulated list equals
appending the corresponding conditional singleton. -/
theorem pushIf_eq_append (c : Prop) [Decidable c]
    (err : TransactionValidationError)
    (errors : List TransactionValidationError) :
    pushIf c err errors = errors ++ (if c then [err] else []) := by
  unfold pushIf
  split_ifs <;> simp

/-- Closed form of the validator past the two short circuits: the error
list is the concatenation of the per-rule singleton lists, in source
order. -/
theorem validateTransaction_active_eq (s : ServiceState)
    (today : CalendarDate) (amount : ℚ) (type : TransactionType)
    (category : TransactionCategory) (date : CalendarDate) (acc : Account)
    (hacc : acc.status ≠ .inactive) :
    validateTransaction s today amount type category date (some acc)
      = (if acc.status = .frozen ∧ type = .debit then [accountFrozenError]
          else [])
        ++ (if amount ≤ 0 then [invalidAmountError] else [])
        ++ (if CalendarDate.lt date acc.openingDate then
              [dateBeforeOpeningError acc.openingDate]
            else [])
        ++ (if type = .credit ∧
              category ∈ BUSINESS_RULES.DEBIT_ONLY_CATEGORIES then
              [invalidCategoryDebitOnlyError category]
            else [])
        ++ (if type = .debit ∧
              category ∈ BUSINESS_RULES.CREDIT_ONLY_CATEGORIES then
              [invalidCategoryCreditOnlyError category]
            else [])
        ++ (if type = .debit ∧ date = today ∧
              BUSINESS_RULES.DAILY_DEBIT_LIMIT
                < todayDebitTotal s today + amount then
              [dailyLimitExceededError (remainingDailyLimit s today)]
            else [])
        ++ (if date = today ∧
              BUSINESS_RULES.MAX_TRANSACTIONS_PER_DAY
                ≤ todayTransactionCount s today then
              [maxTransactionsExceededError]
            else []) := by
  simp only [validateTransaction]
  rw [if_neg hacc]
  simp only [pushIf_eq_append, List.nil_append, List.append_assoc]

/-- C2: past the two short circuits, the validator returns exactly the
errors of the rules whose conditions hold, concatenated in the fixed
source order (frozen-debit, amount, date, credit-with-debit-only
category, debit-with-credit-only category, daily limit, max
transactions); in particular all simultaneously failing rules contribute,
and the max-transactions error can appear together with the daily-limit
error. -/
theorem validateTransaction_accumulates_rules_in_order (s : ServiceState)
    (today : CalendarDate) (amount : ℚ) (type : TransactionType)
    (category : TransactionCategory) (date : CalendarDate) (acc : Account)
    (hacc : acc.status ≠ .inactive) :
    validateTransaction s today amount type category date (some acc)
      = (if acc.status = .frozen ∧ type = .debit then [accountFrozenError]
          else [])
        ++ (if amount ≤ 0 then [invalidAmountError] else [])
        ++ (if CalendarDate.lt date acc.openingDate then
              [dateBeforeOpeningError acc.openingDate]
            else [])
        ++ (if type = .credit ∧
              category ∈ BUSINESS_RULES.DEBIT_ONLY_CATEGORIES then
              [invalidCategoryDebitOnlyError category]
            else [])
        ++ (if type = .debit ∧
              category ∈ BUSINESS_RULES.CREDIT_ONLY_CATEGORIES then
              [invalidCategoryCreditOnlyError category]
            else [])
        ++ (if type = .debit ∧ date = today ∧
              BUSINESS_RULES.DAILY_DEBIT_LIMIT
                < todayDebitTotal s today + amount then
              [dailyLimitExceededError (remainingDailyLimit s today)]
            else [])
        ++ (if date = today ∧
              BUSINESS_RULES.MAX_TRANSACTIONS_PER_DAY
                ≤ todayTransactionCount s today then
              [maxTransactionsExceededError]
            else []) :=
  validateTransaction_active_eq s today amount type category date acc hacc

/-- Witness for C2: a frozen account, a negative amount, a date before
opening and a credit-only category on a debit fail together, and all four
errors are returned in the fixed order. -/
theorem validateTransaction_accumulates_rules_in_order_witness :
    acctFrozenW.status ≠ .inactive
    ∧ validateTransaction (mkState []) dayW (-5) .debit .income
        ⟨2024, 11, 31⟩ (some acctFrozenW)
      = [accountFrozenError, invalidAmountError,
         dateBeforeOpeningError acctFrozenW.openingDate,
         invalidCategoryCreditOnlyError .income] :=
  ⟨by decide, by
    rw [validateTransaction_accumulates_rules_in_order (mkState []) dayW
      (-5) .debit .income ⟨2024, 11, 31⟩ acctFrozenW (by decide)]
    decide⟩

/-- The daily-limit error message always states the configured limit. -/
theorem statedLimit_dailyLimitExceededError (r : ℚ) :
    statedLimit (dailyLimitExceededError r).message
      = some BUSINESS_RULES.DAILY_DEBIT_LIMIT := by
  unfold dailyLimitExceededError statedLimit
  split_ifs <;> rfl

/-- The daily-limit error message states the remaining allowance it was
built from, provided that allowance is nonnegative. -/
theorem statedRemaining_dailyLimitExceededError (r : ℚ) (h : 0 ≤ r) :
    statedRemaining (dailyLimitExceededError r).message = some r := by
  unfold dailyLimitExceededError statedRemaining
  split_ifs with h1
  · have hr : r = 0 := le_antisymm h1 h
    rw [hr]
  · rfl

/-- C4: past the two short circuits, a DAILY_LIMIT_EXCEEDED error is
present exactly when the transaction is a debit dated today whose amount
pushes the completed debit total of today over the limit of 20000; any
such error is attributed to the amount field and its message states the
limit and the zero-floored remaining allowance before this transaction. -/
theorem validateTransaction_daily_limit_rule (s : ServiceState)
    (today : CalendarDate) (amount : ℚ) (type : TransactionType)
    (category : TransactionCategory) (date : CalendarDate) (acc : Account)
    (hacc : acc.status ≠ .inactive) :
    ((∃ e ∈ validateTransaction s today amount type category date (some acc),
        e.code = "DAILY_LIMIT_EXCEEDED")
      ↔ type = .debit ∧ date = today ∧
          BUSINESS_RULES.DAILY_DEBIT_LIMIT < todayDebitTotal s today + amount)
    ∧ ∀ e ∈ validateTransaction s today amount type category date (some acc),
        e.code = "DAILY_LIMIT_EXCEEDED" →
          e.field = some .amount
          ∧ statedLimit e.message = some BUSINESS_RULES.DAILY_DEBIT_LIMIT
          ∧ statedRemaining e.message
              = some (max 0
                  (BUSINESS_RULES.DAILY_DEBIT_LIMIT - todayDebitTotal s today)) := by
  rw [validateTransaction_active_eq s today amount type category date acc hacc]
  constructor
  · constructor
    · rintro ⟨e, he, hcode⟩
      simp only [List.mem_append, List.mem_ite_nil_right,
        List.mem_singleton] at he
      rcases he with ((((((h | h) | h) | h) | h) | h) | h) <;>
        obtain ⟨hc, rfl⟩ := h
      · exact absurd hcode (by decide)
      · exact absurd hcode (by decide)
      · exact absurd hcode (by simp [dateBeforeOpeningError])
      · exact absurd hcode (by simp [invalidCategoryDebitOnlyError])
      · exact absurd hcode (by simp [invalidCategoryCreditOnlyError])
      · exact hc
      · exact absurd hcode (by decide)
    · intro hcond
      refine ⟨dailyLimitExceededError (remainingDailyLimit s today), ?_, rfl⟩
      simp only [List.mem_append, List.mem_ite_nil_right,
        List.mem_singleton]
      exact Or.inl (Or.inr ⟨hcond, by simp⟩)
  · intro e he hcode
    simp only [List.mem_append, List.mem_ite_nil_right,
      List.mem_singleton] at he
    rcases he with ((((((h | h) | h) | h) | h) | h) | h) <;>
      obtain ⟨hc, rfl⟩ := h
    · exact absurd hcode (by decide)
    · exact absurd hcode (by decide)
    · exact absurd hcode (by simp [dateBeforeOpeningError])
    · exact absurd hcode (by simp [invalidCategoryDebitOnlyError])
    · exact absurd hcode (by simp [invalidCategoryCreditOnlyError])
    · refine ⟨rfl, statedLimit_dailyLimitExceededError _, ?_⟩
      have hr : 0 ≤ remainingDailyLimit s today := by
        unfold remainingDailyLimit
        exact le_max_left 0 _
      rw [statedRemaining_dailyLimitExceededError _ hr]
      unfold remainingDailyLimit
      rfl
    · exact absurd hcode (by decide)

/-- Witness for C4 at the scenario of the claim: 19500 of completed
debits already exist today, a debit of 600 is proposed today, and the
returned daily-limit error message states the limit 20000 and the
remaining allowance 500. -/
theorem validateTransaction_daily_limit_rule_witness :
    acctW.status ≠ .inactive
    ∧ (((∃ e ∈ validateTransaction dailyLimitStateW dayW 600 .debit
            .transfer dayW (some acctW),
          e.code = "DAILY_LIMIT_EXCEEDED")
        ↔ TransactionType.debit = .debit ∧ dayW = dayW ∧
            BUSINESS_RULES.DAILY_DEBIT_LIMIT
              < todayDebitTotal dailyLimitStateW dayW + 600)
      ∧ ∀ e ∈ validateTransaction dailyLimitStateW dayW 600 .debit
            .transfer dayW (some acctW),
          e.code = "DAILY_LIMIT_EXCEEDED" →
            e.field = some .amount
            ∧ statedLimit e.message = some BUSINESS_RULES.DAILY_DEBIT_LIMIT
            ∧ statedRemaining e.message
                = some (max 0
                    (BUSINESS_RULES.DAILY_DEBIT_LIMIT
                      - todayDebitTotal dailyLimitStateW dayW)))
    ∧ validateTransaction dailyLimitStateW dayW 600 .debit .transfer dayW
        (some acctW)
      = [dailyLimitExceededError 500] :=
  ⟨by decide,
    validateTransaction_daily_limit_rule dailyLimitStateW dayW 600 .debit
      .transfer dayW acctW (by decide),
    by
      norm_num [validateTransaction, pushIf, todayDebitTotal,
        todayTransactionCount, remainingDailyLimit, completedTransactions,
        accountTransactions, customerAccounts, selectedAccount,
        dailyLimitStateW, mkState, mkTxn, acctW, dayW, CalendarDate.lt,
        CalendarDate.le, List.insertionSort, List.orderedInsert,
        dailyLimitExceededError, max_def, BUSINESS_RULES.DAILY_DEBIT_LIMIT,
        BUSINESS_RULES.MAX_TRANSACTIONS_PER_DAY,
        BUSINESS_RULES.CREDIT_ONLY_CATEGORIES,
        BUSINESS_RULES.DEBIT_ONLY_CATEGORIES]
      decide⟩

/-- C7: when the validator returns a non-empty error list,
createTransaction returns failure carrying exactly those errors and the
state is returned unchanged (ledger, undo slot and draft untouched); the
failure is data, not an exception, since the embedding is a total
function. -/
theorem createTransaction_validation_failure_no_side_effects
    (s : ServiceState) (today : CalendarDate) (type : TransactionType)
    (category : TransactionCategory) (amount : ℚ) (description : String)
    (date : CalendarDate) (freshId nowTimestamp refSuffix : String)
    (h : validateTransaction s today amount type category date
        (selectedAccount s) ≠ []) :
    createTransaction s today type category amount description date freshId
        nowTimestamp refSuffix
      = ({ success := false,
           errors := some (validateTransaction s today amount type category
             date (selectedAccount s)) }, s) := by
  unfold createTransaction
  cases hacc : selectedAccount s with
  | none => simp [hacc]
  | some acc =>
    rw [hacc] at h
    simp [hacc, h]

/-- Witness for C7: a nonpositive amount fails validation and the
returned state is the input state. -/
theorem createTransaction_validation_failure_no_side_effects_witness :
    validateTransaction (mkState []) dayW (-5) .credit .transfer dayW
        (selectedAccount (mkState [])) ≠ []
    ∧ createTransaction (mkState []) dayW .credit .transfer (-5) "d" dayW
        "id1" "ts1" "r1"
      = ({ success := false,
           errors := some (validateTransaction (mkState []) dayW (-5)
             .credit .transfer dayW (selectedAccount (mkState []))) },
         mkState []) :=
  ⟨by decide,
    createTransaction_validation_failure_no_side_effects (mkState []) dayW
      .credit .transfer (-5) "d" dayW "id1" "ts1" "r1" (by decide)⟩

/-- C9: a saved draft reads back as the draft with the save timestamp
set, a cleared draft reads back as null, and saving overwrites the single
draft slot. -/
theorem draft_roundtrip (s : ServiceState) (d d2 : DraftTransaction)
    (now now2 : String) :
    getDraft (saveDraft s d now) = some { d with savedAt := now }
    ∧ getDraft (clearDraft s) = none
    ∧ getDraft (saveDraft (saveDraft s d now) d2 now2)
        = some { d2 with savedAt := now2 } :=
  ⟨rfl, rfl, rfl⟩

/-- Unfolding of the createTransaction success path: with a selected
account and no validation errors, the call returns the new transaction
and updates the ledger, the undo slot (only for a completed status) and
the draft slot. -/
theorem createTransaction_success_unfold (s : ServiceState)
    (today : CalendarDate) (type : TransactionType)
    (category : TransactionCategory) (amount : ℚ) (description : String)
    (date : CalendarDate) (freshId nowTimestamp refSuffix : String)
    (acc : Account) (hacc : selectedAccount s = some acc)
    (herr : validateTransaction s today amount type category date
        (some acc) = []) :
    createTransaction s today type category amount description date freshId
        nowTimestamp refSuffix
      = ({ success := true,
           transaction := some
             { id := freshId, accountId := acc.id, type := type,
               category := category, amount := amount,
               currency := acc.currency, description := description,
               date := date,
               status := if CalendarDate.lt today date then
                   TransactionStatus.scheduled
                 else TransactionStatus.completed,
               createdAt := nowTimestamp,
               reference := some (generateReference type refSuffix) } },
         clearDraft
           (if CalendarDate.lt today date then
             { s with
               transactions := addTransaction s.transactions
                 { id := freshId, accountId := acc.id, type := type,
                   category := category, amount := amount,
                   currency := acc.currency, description := description,
                   date := date, status := TransactionStatus.scheduled,
                   createdAt := nowTimestamp,
                   reference := some (generateReference type refSuffix) } }
           else
             { s with
               transactions := addTransaction s.transactions
                 { id := freshId, accountId := acc.id, type := type,
                   category := category, amount := amount,
                   currency := acc.currency, description := description,
                   date := date, status := TransactionStatus.completed,
                   createdAt := nowTimestamp,
                   reference := some (generateReference type refSuffix) },
               lastTransaction := some
                 { id := freshId, accountId := acc.id, type := type,
                   category := category, amount := amount,
                   currency := acc.currency, description := description,
                   date := date, status := TransactionStatus.completed,
                   createdAt := nowTimestamp,
                   reference := some (generateReference type refSuffix) },
               canUndo := true })) := by
  unfold createTransaction
  rw [hacc]
  simp only [herr]
  by_cases hlt : CalendarDate.lt today date
  · simp [hlt]
  · simp [hlt]

/-- C3 counterexample: in a state where a completed transaction is
recorded as undoable, a successful scheduled creation does not discard
the undo slot, and a subsequent undoLastTransaction returns true and
removes the previously recorded transaction, contradicting the claim
that it would return false and remove nothing. -/
theorem scheduled_creation_keeps_undo_slot_cex :
    (createTransaction undoStateW dayW .debit .transfer 100 "d" dayW1
        "txn1" "ts1" "r1").1.success = true
    ∧ (createTransaction undoStateW dayW .debit .transfer 100 "d" dayW1
        "txn1" "ts1" "r1").1.transaction.map (fun t => t.status)
      = some .scheduled
    ∧ (createTransaction undoStateW dayW .debit .transfer 100 "d" dayW1
        "txn1" "ts1" "r1").2.canUndo = true
    ∧ (createTransaction undoStateW dayW .debit .transfer 100 "d" dayW1
        "txn1" "ts1" "r1").2.lastTransaction = some txnUndoW
    ∧ (undoLastTransaction (createTransaction undoStateW dayW .debit
        .transfer 100 "d" dayW1 "txn1" "ts1" "r1").2).1 = true
    ∧ txnUndoW ∉ (undoLastTransaction (createTransaction undoStateW dayW
        .debit .transfer 100 "d" dayW1 "txn1" "ts1" "r1").2).2.transactions := by
  decide

/-- C3 amended: the undo slot is one level deep with respect to completed
creations only: a successful completed creation overwrites the undo slot
with the new transaction and enables undo, while a successful scheduled
creation leaves the undo slot and the undo flag unchanged, so a
previously recorded transaction remains undoable after a scheduled
creation. -/
theorem createTransaction_undo_slot_depth (s : ServiceState)
    (today : CalendarDate) (type : TransactionType)
    (category : TransactionCategory) (amount : ℚ) (description : String)
    (date : CalendarDate) (freshId nowTimestamp refSuffix : String)
    (acc : Account) (hacc : selectedAccount s = some acc)
    (herr : validateTransaction s today amount type category date
        (some acc) = []) :
    (CalendarDate.lt today date →
      (createTransaction s today type category amount description date
          freshId nowTimestamp refSuffix).2.lastTransaction
        = s.lastTransaction
      ∧ (createTransaction s today type category amount description date
          freshId nowTimestamp refSuffix).2.canUndo = s.canUndo)
    ∧ (¬CalendarDate.lt today date →
      (createTransaction s today type category amount description date
          freshId nowTimestamp refSuffix).2.lastTransaction
        = (createTransaction s today type category amount description date
            freshId nowTimestamp refSuffix).1.transaction
      ∧ (createTransaction s today type category amount description date
          freshId nowTimestamp refSuffix).2.canUndo = true) := by
  rw [createTransaction_success_unfold s today type category amount
    description date freshId nowTimestamp refSuffix acc hacc herr]
  constructor
  · intro hlt
    simp [hlt, clearDraft]
  · intro hlt
    simp [hlt, clearDraft]

/-- Witness for the amended C3 at a concrete scheduled creation over a
state with a recorded undoable transaction. -/
theorem createTransaction_undo_slot_depth_witness :
    selectedAccount undoStateW = some acctW
    ∧ validateTransaction undoStateW dayW 100 .debit .transfer dayW1
        (some acctW) = []
    ∧ ((CalendarDate.lt dayW dayW1 →
        (createTransaction undoStateW dayW .debit .transfer 100 "d" dayW1
            "txn1" "ts1" "r1").2.lastTransaction
          = undoStateW.lastTransaction
        ∧ (createTransaction undoStateW dayW .debit .transfer 100 "d" dayW1
            "txn1" "ts1" "r1").2.canUndo = undoStateW.canUndo)
      ∧ (¬CalendarDate.lt dayW dayW1 →
        (createTransaction undoStateW dayW .debit .transfer 100 "d" dayW1
            "txn1" "ts1" "r1").2.lastTransaction
          = (createTransaction undoStateW dayW .debit .transfer 100 "d"
              dayW1 "txn1" "ts1" "r1").1.transaction
        ∧ (createTransaction undoStateW dayW .debit .transfer 100 "d" dayW1
            "txn1" "ts1" "r1").2.canUndo = true)) :=
  ⟨by decide, by decide,
    createTransaction_undo_slot_depth undoStateW dayW .debit .transfer 100
      "d" dayW1 "txn1" "ts1" "r1" acctW (by decide) (by decide)⟩

/-- The spending trend always has exactly 3 entries. -/
theorem spendingTrend_length3 (s : ServiceState) (now : CalendarDate) :
    (spendingTrend s now).length = 3 :=
  rfl

/-- C10: whenever the previous-month total of the 3-entry spending trend
is exactly 0, monthOverMonthChange reports direction stable and
percentage 0 regardless of the current-month total, and the reported
absolute change equals the current-month total. -/
theorem monthOverMonthChange_stable_when_previous_zero (s : ServiceState)
    (now : CalendarDate)
    (h : ((spendingTrend s now).getD 1 default).total = 0) :
    monthOverMonthChange s now
      = { change := ((spendingTrend s now).getD 2 default).total,
          percentage := 0, direction := .stable } := by
  have hlen := spendingTrend_length3 s now
  norm_num at h
  simp only [monthOverMonthChange, hlen]
  norm_num [h]

/-- Witness for C10: one debit of 500 in the current month and none in
the previous month yields a stable direction with percentage 0 and an
absolute change of 500. -/
theorem monthOverMonthChange_stable_when_previous_zero_witness :
    ((spendingTrend trendStateW dayW).getD 1 default).total = 0
    ∧ monthOverMonthChange trendStateW dayW
        = { change := ((spendingTrend trendStateW dayW).getD 2 default).total,
            percentage := 0, direction := .stable }
    ∧ ((spendingTrend trendStateW dayW).getD 2 default).total = 500 :=
  ⟨by decide,
    monthOverMonthChange_stable_when_previous_zero trendStateW dayW
      (by decide),
    by
      norm_num [spendingTrend, trendEntry, debitTransactions,
        customerTransactions, trendStateW, mkState, mkTxn, acctW, dayW,
        monthIndex]⟩

/-- C8: abnormal-spending detection: with fewer than 3 debit transactions
or a zero average it reports a not-detected result with an empty list and
an empty message; otherwise it flags exactly the debit transactions whose
amount exceeds the average times 1.5, with a count-bearing message when
any are flagged and the neutral message when none are; in the concrete
scenario of four debits of 100 and one of 400, the 400 transaction is
flagged. -/
theorem abnormalSpending_detection (s : ServiceState) :
    (averageSpending s = 0 ∨ (debitTransactions s).length < 3 →
      abnormalSpending s
        = { detected := false, transactions := [], message := .empty })
    ∧ (¬(averageSpending s = 0 ∨ (debitTransactions s).length < 3) →
      (abnormalSpending s).transactions
          = (debitTransactions s).filter
              (fun t => averageSpending s * ABNORMAL_THRESHOLD < t.amount)
      ∧ ((debitTransactions s).filter
            (fun t => averageSpending s * ABNORMAL_THRESHOLD < t.amount)
              = [] →
          abnormalSpending s
            = { detected := false, transactions := [],
                message := .noAbnormalDetected })
      ∧ ((debitTransactions s).filter
            (fun t => averageSpending s * ABNORMAL_THRESHOLD < t.amount)
              ≠ [] →
          abnormalSpending s
            = { detected := true,
                transactions := (debitTransactions s).filter
                  (fun t => averageSpending s * ABNORMAL_THRESHOLD < t.amount),
                message := .exceedCount ((debitTransactions s).filter
                  (fun t =>
                    averageSpending s * ABNORMAL_THRESHOLD < t.amount)).length }))
    ∧ abnormalSpending abnormalStateW
        = { detected := true, transactions := [txnAbnormalW],
            message := .exceedCount 1 } := by
  refine ⟨?_, ?_, ?_⟩
  · intro h
    simp only [abnormalSpending]
    rw [if_pos h]
  · intro h
    simp only [abnormalSpending]
    rw [if_neg h]
    by_cases hf : (debitTransactions s).filter
        (fun t => averageSpending s * ABNORMAL_THRESHOLD < t.amount) = []
    · rw [if_pos hf]
      exact ⟨hf.symm, fun _ => rfl, fun hne => absurd hf hne⟩
    · rw [if_neg hf]
      exact ⟨rfl, fun heq => absurd heq hf, fun _ => rfl⟩
  · norm_num [abnormalSpending, averageSpending, jsRound,
      debitTransactions, customerTransactions, abnormalStateW, mkState,
      mkTxn, acctW, txnAbnormalW, ABNORMAL_THRESHOLD, dayW, List.filter,
      List.foldl]

/-- Folding the status updates of a batch of transactions over the ledger
marks completed exactly the ledger entries whose id occurs in the
batch. -/
theorem foldl_updateStatus_eq_map (due : List Transaction) :
    ∀ ledger : List Transaction,
    due.foldl (fun acc t => updateTransactionStatus acc t.id .completed)
        ledger
      = ledger.map (fun t =>
          if t.id ∈ due.map (fun u => u.id) then
            { t with status := TransactionStatus.completed }
          else t) := by
  induction due with
  | nil => intro ledger; simp
  | cons d due ih =>
    intro ledger
    rw [List.foldl_cons, ih]
    unfold updateTransactionStatus
    rw [List.map_map]
    apply List.map_congr_left
    intro t _
    by_cases h1 : t.id = d.id <;>
      by_cases h2 : t.id ∈ due.map (fun u => u.id) <;>
        simp [Function.comp, h1, h2]

/-- The due scheduled transactions of the selected account are, up to the
ordering introduced by the date sort, exactly the ledger entries of the
selected account that are scheduled and due. -/
theorem due_perm_filter (s : ServiceState) (today : CalendarDate) :
    ((scheduledTransactions s).filter
        (fun t => CalendarDate.le t.date today)).Perm
      (s.transactions.filter (fun t =>
        s.selectedAccountId = some t.accountId
          ∧ t.status = .scheduled ∧ CalendarDate.le t.date today)) := by
  unfold scheduledTransactions accountTransactions
  cases hsel : s.selectedAccountId with
  | none =>
    simp only [hsel]
    have hnil : s.transactions.filter (fun t =>
        (none : Option String) = some t.accountId
          ∧ t.status = .scheduled ∧ CalendarDate.le t.date today) = [] := by
      rw [List.filter_eq_nil_iff]
      intro a _
      simp
    rw [hnil]
    simp
  | some aid =>
    simp only [hsel]
    have hperm := List.perm_insertionSort
      (fun a b : Transaction => CalendarDate.le b.date a.date)
      (s.transactions.filter (fun t => t.accountId = aid))
    have h2 := (hperm.filter
        (fun t => t.status = TransactionStatus.scheduled)).filter
      (fun t => CalendarDate.le t.date today)
    refine h2.trans (List.Perm.of_eq ?_)
    rw [List.filter_filter, List.filter_filter]
    apply List.filter_congr
    intro t _
    rw [Bool.eq_iff_iff]
    simp only [Bool.and_eq_true, decide_eq_true_eq]
    constructor
    · rintro ⟨⟨hle, hst⟩, hacct⟩
      exact ⟨by rw [hacct], hst, hle⟩
    · rintro ⟨hacct, hst, hle⟩
      exact ⟨⟨hle, hst⟩, (Option.some.inj hacct).symm⟩

/-- Unfolding of processScheduledTransactions as a pair of the due count
and the ledger with the due ids marked completed. -/
theorem processScheduled_eq (s : ServiceState) (today : CalendarDate) :
    processScheduledTransactions s today
      = (((scheduledTransactions s).filter
            (fun t => CalendarDate.le t.date today)).length,
         { s with
           transactions := s.transactions.map (fun t =>
             if t.id ∈ ((scheduledTransactions s).filter
                 (fun u => CalendarDate.le u.date today)).map (fun u => u.id)
             then { t with status := TransactionStatus.completed }
             else t) }) := by
  simp only [processScheduledTransactions]
  rw [foldl_updateStatus_eq_map]

/-- With no duplicate ids in the ledger, a ledger entry has its id among
the due scheduled ids exactly when the entry itself belongs to the
selected account, is scheduled, and is due. -/
theorem id_mem_due_iff (s : ServiceState) (today : CalendarDate)
    (hnd : (s.transactions.map (fun t => t.id)).Nodup)
    (t : Transaction) (ht : t ∈ s.transactions) :
    t.id ∈ ((scheduledTransactions s).filter
        (fun u => CalendarDate.le u.date today)).map (fun u => u.id)
      ↔ s.selectedAccountId = some t.accountId ∧ t.status = .scheduled
          ∧ CalendarDate.le t.date today := by
  constructor
  · intro h
    rcases List.mem_map.mp h with ⟨u, hu, huid⟩
    have hu2 := (due_perm_filter s today).mem_iff.mp hu
    rcases List.mem_filter.mp hu2 with ⟨hul, hP⟩
    have hP2 := of_decide_eq_true hP
    have hut : u = t := List.inj_on_of_nodup_map hnd hul ht huid
    exact hut ▸ hP2
  · intro hP
    apply List.mem_map.mpr
    refine ⟨t, ?_, rfl⟩
    apply (due_perm_filter s today).mem_iff.mpr
    exact List.mem_filter.mpr ⟨ht, decide_eq_true hP⟩

/-- C6: when ledger ids are distinct, processScheduledTransactions
transitions in place exactly the scheduled transactions of the selected
account whose date is today or earlier (same identity, no new record),
returns their number, and is idempotent: an immediate second call returns
0 and leaves the state unchanged. -/
theorem processScheduledTransactions_inplace_idempotent (s : ServiceState)
    (today : CalendarDate)
    (hnd : (s.transactions.map (fun t => t.id)).Nodup) :
    (processScheduledTransactions s today).2
        = { s with
            transactions := s.transactions.map (fun t =>
              if s.selectedAccountId = some t.accountId
                  ∧ t.status = .scheduled ∧ CalendarDate.le t.date today then
                { t with status := TransactionStatus.completed }
              else t) }
    ∧ (processScheduledTransactions s today).1
        = (s.transactions.filter (fun t =>
            s.selectedAccountId = some t.accountId
              ∧ t.status = .scheduled ∧ CalendarDate.le t.date today)).length
    ∧ processScheduledTransactions
          (processScheduledTransactions s today).2 today
        = (0, (processScheduledTransactions s today).2) := by
  have hmap : (processScheduledTransactions s today).2
      = { s with
          transactions := s.transactions.map (fun t =>
            if s.selectedAccountId = some t.accountId
                ∧ t.status = .scheduled ∧ CalendarDate.le t.date today then
              { t with status := TransactionStatus.completed }
            else t) } := by
    rw [processScheduled_eq]
    exact congrArg (fun L => { s with transactions := L })
      (List.map_congr_left fun t ht =>
        if_congr (id_mem_due_iff s today hnd t ht) rfl rfl)
  refine ⟨hmap, ?_, ?_⟩
  · rw [processScheduled_eq]
    exact (due_perm_filter s today).length_eq
  · rw [hmap]
    have hdue2 : (scheduledTransactions
          { s with
            transactions := s.transactions.map (fun t =>
              if s.selectedAccountId = some t.accountId
                  ∧ t.status = .scheduled ∧ CalendarDate.le t.date today then
                { t with status := TransactionStatus.completed }
              else t) }).filter (fun t => CalendarDate.le t.date today)
        = [] := by
      apply List.Perm.eq_nil
      refine (due_perm_filter _ today).trans (List.Perm.of_eq ?_)
      rw [List.filter_eq_nil_iff]
      intro u hu
      have hu2 : u ∈ s.transactions.map (fun t =>
          if s.selectedAccountId = some t.accountId
              ∧ t.status = .scheduled ∧ CalendarDate.le t.date today then
            { t with status := TransactionStatus.completed }
          else t) := hu
      rcases List.mem_map.mp hu2 with ⟨t, ht, hut⟩
      intro hPdec
      have hP2 := of_decide_eq_true hPdec
      by_cases hP : s.selectedAccountId = some t.accountId
          ∧ t.status = .scheduled ∧ CalendarDate.le t.date today
      · rw [if_pos hP] at hut
        rw [← hut] at hP2
        simp at hP2
      · rw [if_neg hP] at hut
        rw [← hut] at hP2
        exact hP (by simpa using hP2)
    rw [processScheduled_eq, hdue2]
    simp

/-- Witness for C6 at a concrete state with one due scheduled debit, one
future scheduled credit and one completed debit: the first call
transitions exactly one transaction and a second call is a no-op. -/
theorem processScheduledTransactions_inplace_idempotent_witness :
    (scheduledStateW.transactions.map (fun t => t.id)).Nodup
    ∧ ((processScheduledTransactions scheduledStateW dayW).2
          = { scheduledStateW with
              transactions := scheduledStateW.transactions.map (fun t =>
                if scheduledStateW.selectedAccountId = some t.accountId
                    ∧ t.status = .scheduled
                    ∧ CalendarDate.le t.date dayW then
                  { t with status := TransactionStatus.completed }
                else t) }
      ∧ (processScheduledTransactions scheduledStateW dayW).1
          = (scheduledStateW.transactions.filter (fun t =>
              scheduledStateW.selectedAccountId = some t.accountId
                ∧ t.status = .scheduled
                ∧ CalendarDate.le t.date dayW)).length
      ∧ processScheduledTransactions
            (processScheduledTransactions scheduledStateW dayW).2 dayW
          = (0, (processScheduledTransactions scheduledStateW dayW).2))
    ∧ (processScheduledTransactions scheduledStateW dayW).1 = 1 :=
  ⟨by decide,
    processScheduledTransactions_inplace_idempotent scheduledStateW dayW
      (by decide),
    by decide⟩
